import Mathlib

/-!
Shallow embedding of the text_to_cad repository (shape-parameter schema,
text feature encoder, synthetic-dataset generators, training/inference
driver glue) together with theorems settling the specification claims.

Numeric values (Python floats) are modeled as rationals; fallible Python
code is modeled with `Except PyErr`.
-/

namespace TextToCad

instance {ε α : Type} [DecidableEq ε] [DecidableEq α] : DecidableEq (Except ε α) :=
  fun x y =>
    match x, y with
    | .ok a, .ok b => decidable_of_iff (a = b) (by simp)
    | .error a, .error b => decidable_of_iff (a = b) (by simp)
    | .ok _, .error _ => isFalse fun h => Except.noConfusion h
    | .error _, .ok _ => isFalse fun h => Except.noConfusion h

/-- Exceptions raised by the Python code that the claims exercise. -/
inductive PyErr where
  | valueError (msg : String)
  | attributeError (msg : String)
  | keyError (msg : String)
  | indexError
  | assertionError (msg : String)
  | zeroDivisionError
  | nameError (msg : String)
  deriving DecidableEq

/-- The `SupportedShapes` enum of `geometric_primitives.py`.  `BOX` is an
alias member of `CUBE` (both carry value 2), so it is not a separate
constructor here; see `SupportedShapes.box`. -/
inductive SupportedShapes where
  | plane
  | cube
  | cylinder
  | cone
  | sphere
  | torus
  | helix
  | circle
  deriving DecidableEq

/-- The alias member `SupportedShapes.BOX = 2`: in Python it is the very
same enum object as `CUBE`. -/
def SupportedShapes.box : SupportedShapes := SupportedShapes.cube

/-- The numeric value of each enum member (`PLANE = 1`, `CUBE = 2`,
`CYLINDER = 3`, `CONE = 4`, `SPHERE = 5`, `TORUS = 7`, `HELIX = 10`,
`CIRCLE = 12`), as a rational because it is stored in float vectors. -/
def SupportedShapes.value : SupportedShapes → ℚ
  | .plane => 1
  | .cube => 2
  | .cylinder => 3
  | .cone => 4
  | .sphere => 5
  | .torus => 7
  | .helix => 10
  | .circle => 12

/-- `str()` of an enum member: `self.name.lower()`.  The alias `BOX`
is the object `CUBE`, whose name is `"CUBE"`, hence `str` is `"cube"`. -/
def SupportedShapes.pyStr : SupportedShapes → String
  | .plane => "plane"
  | .cube => "cube"
  | .cylinder => "cylinder"
  | .cone => "cone"
  | .sphere => "sphere"
  | .torus => "torus"
  | .helix => "helix"
  | .circle => "circle"

/-- Name lookup `SupportedShapes[name]`; raises `KeyError` on a missing
name.  Both `"CUBE"` and `"BOX"` resolve to the member of value 2. -/
def SupportedShapes.fromName (name : String) : Except PyErr SupportedShapes :=
  if name = "PLANE" then .ok .plane
  else if name = "CUBE" ∨ name = "BOX" then .ok .cube
  else if name = "CYLINDER" then .ok .cylinder
  else if name = "CONE" then .ok .cone
  else if name = "SPHERE" then .ok .sphere
  else if name = "TORUS" then .ok .torus
  else if name = "HELIX" then .ok .helix
  else if name = "CIRCLE" then .ok .circle
  else .error (.keyError name)

/-- Value lookup `SupportedShapes(v)`; raises `ValueError` when `v` is not
the value of any member. -/
def SupportedShapes.fromValue (v : ℚ) : Except PyErr SupportedShapes :=
  if v = 1 then .ok .plane
  else if v = 2 then .ok .cube
  else if v = 3 then .ok .cylinder
  else if v = 4 then .ok .cone
  else if v = 5 then .ok .sphere
  else if v = 7 then .ok .torus
  else if v = 10 then .ok .helix
  else if v = 12 then .ok .circle
  else .error (.valueError "is not a valid SupportedShapes")

/-- The `Parameters` dataclass of `geometric_primitives.py`: a shape kind
plus eight numeric fields, each defaulting to 0. -/
structure Parameters where
  shape : SupportedShapes
  length : ℚ := 0
  width : ℚ := 0
  height : ℚ := 0
  radius : ℚ := 0
  radius1 : ℚ := 0
  radius2 : ℚ := 0
  pitch : ℚ := 0
  angle : ℚ := 0
  deriving DecidableEq

/-- `Parameters.to_list`: the fixed 9-slot flattening
`[shape, length, width, height, radius, radius1, radius2, pitch, angle]`. -/
def Parameters.to_list (p : Parameters) : List ℚ :=
  [p.shape.value, p.length, p.width, p.height, p.radius, p.radius1,
   p.radius2, p.pitch, p.angle]

/-! The `cad_parameters` records constructed by the per-shape dataset
generator scripts (`generate_*_data.py`), keyword arguments as written
there; every other field keeps its default 0. -/

/-- `Parameters(shape=PLANE, width=width, height=height)` from
`generate_plane_data.py`. -/
def planeCadParameters (width height : ℚ) : Parameters :=
  { shape := .plane, width := width, height := height }

/-- `Parameters(shape=BOX, length=length, width=width, height=height)`
from `generate_box_and_cube_data.py`. -/
def boxCadParameters (length width height : ℚ) : Parameters :=
  { shape := SupportedShapes.box, length := length, width := width, height := height }

/-- `Parameters(shape=CUBE, length=side, width=side, height=side)` from
`generate_box_and_cube_data.py`. -/
def cubeCadParameters (side : ℚ) : Parameters :=
  { shape := .cube, length := side, width := side, height := side }

/-- `Parameters(shape=CYLINDER, radius=radius, height=height)` from
`generate_cylinder_data.py`. -/
def cylinderCadParameters (radius height : ℚ) : Parameters :=
  { shape := .cylinder, radius := radius, height := height }

/-- `Parameters(shape=CONE, radius1=base_radius, radius2=top_radius,
height=height)` from `generate_cone_data.py`. -/
def coneCadParameters (base_radius top_radius height : ℚ) : Parameters :=
  { shape := .cone, radius1 := base_radius, radius2 := top_radius, height := height }

/-- `Parameters(shape=SPHERE, radius=radius)` from
`generate_sphere_data.py`. -/
def sphereCadParameters (radius : ℚ) : Parameters :=
  { shape := .sphere, radius := radius }

/-- `Parameters(shape=TORUS, radius1=major_radius, radius2=minor_radius)`
from `generate_torus_data.py`. -/
def torusCadParameters (major_radius minor_radius : ℚ) : Parameters :=
  { shape := .torus, radius1 := major_radius, radius2 := minor_radius }

/-- `Parameters(shape=HELIX, pitch=pitch, height=height, radius=radius,
angle=angle)` from `generate_helix_data.py`. -/
def helixCadParameters (pitch height radius angle : ℚ) : Parameters :=
  { shape := .helix, pitch := pitch, height := height, radius := radius, angle := angle }

/-- `shape.upper()` on the ASCII shape strings at hand: uppercase each
character. -/
def pyUpper (s : String) : String := String.mk (s.toList.map Char.toUpper)

/-- Python list subscription `xs[i]` for a non-negative index: raises
`IndexError` when `i` is out of range. -/
def pyGet (xs : List ℚ) (i : ℕ) : Except PyErr ℚ :=
  match xs.get? i with
  | some v => .ok v
  | none => .error .indexError

/-- `from_list_to_parameter` of `parameter_tools.py`, branch for branch.
Its local index table is
`{length: 0, width: 1, height: 2, radius: 3, radius1: 4, radius2: 5,
pitch: 5, angle: 7}` (note `radius2` and `pitch` share slot 5).  The
guard of the final `elif` evaluates `str(SupportedShapes.POLYGON)`, and
`POLYGON` is not a member of the enum (it only appears in a TODO
comment), so Python raises `AttributeError` there; the concluding
`raise ValueError` is unreachable. -/
def from_list_to_parameter (shape : String) (parameters : List ℚ) :
    Except PyErr Parameters :=
  if shape = SupportedShapes.plane.pyStr then do
    let s ← SupportedShapes.fromName (pyUpper shape)
    let l ← pyGet parameters 0
    let w ← pyGet parameters 1
    pure { shape := s, length := l, width := w }
  else if shape = SupportedShapes.cube.pyStr ∨ shape = SupportedShapes.box.pyStr then do
    let s ← SupportedShapes.fromName (pyUpper shape)
    let l ← pyGet parameters 0
    let w ← pyGet parameters 1
    let h ← pyGet parameters 2
    pure { shape := s, length := l, width := w, height := h }
  else if shape = SupportedShapes.cylinder.pyStr then do
    let s ← SupportedShapes.fromName (pyUpper shape)
    let r ← pyGet parameters 3
    let h ← pyGet parameters 2
    pure { shape := s, radius := r, height := h }
  else if shape = SupportedShapes.cone.pyStr then do
    let s ← SupportedShapes.fromName (pyUpper shape)
    let r1 ← pyGet parameters 4
    let r2 ← pyGet parameters 5
    let h ← pyGet parameters 2
    pure { shape := s, radius1 := r1, radius2 := r2, height := h }
  else if shape = SupportedShapes.sphere.pyStr then do
    let s ← SupportedShapes.fromName (pyUpper shape)
    let r ← pyGet parameters 3
    pure { shape := s, radius := r }
  else if shape = SupportedShapes.torus.pyStr then do
    let s ← SupportedShapes.fromName (pyUpper shape)
    let r1 ← pyGet parameters 4
    let r2 ← pyGet parameters 5
    pure { shape := s, radius1 := r1, radius2 := r2 }
  else if shape = SupportedShapes.helix.pyStr then do
    let s ← SupportedShapes.fromName (pyUpper shape)
    let p ← pyGet parameters 5
    let h ← pyGet parameters 2
    let r ← pyGet parameters 3
    let a ← pyGet parameters 7
    pure { shape := s, pitch := p, height := h, radius := r, angle := a }
  else if shape = SupportedShapes.circle.pyStr then do
    let s ← SupportedShapes.fromName (pyUpper shape)
    let r ← pyGet parameters 3
    pure { shape := s, radius := r }
  else
    -- evaluating the guard `shape == str(SupportedShapes.POLYGON)` raises
    -- AttributeError("POLYGON"); the `raise ValueError` below it is dead code
    .error (.attributeError "POLYGON")

/-- The shape strings for which `from_list_to_parameter` has a branch. -/
def supportedShapeStrings : List String :=
  ["plane", "cube", "cylinder", "cone", "sphere", "torus", "helix", "circle"]

/-! Synthetic-dataset generators: the random sampling in
`generate_cone_data.py` and `generate_torus_data.py`.  Following the
claims, `random.uniform(a, b)` is modeled as returning any value in the
closed interval between `a` and `b` (the two bounds may arrive in either
order, e.g. `uniform(1, major_radius - 0.1)` with a small major radius). -/

/-- The qualitative size buckets shared by all generator scripts. -/
inductive SizeBucket where
  | small
  | medium
  | large
  deriving DecidableEq

/-- `size_to_range = {"small": (1, 10), "medium": (11, 50),
"large": (51, 100)}`. -/
def size_to_range : SizeBucket → ℚ × ℚ
  | .small => (1, 10)
  | .medium => (11, 50)
  | .large => (51, 100)

/-- Model of `random.uniform(a, b)`: the result lies in the closed
interval spanned by the two arguments (which may arrive in either
order). -/
def uniformClosed (a b x : ℚ) : Prop := (a ≤ x ∧ x ≤ b) ∨ (b ≤ x ∧ x ≤ a)

/-- A cone sample, as returned by `generate_random_parameters` in
`generate_cone_data.py`. -/
structure ConeSample where
  base_radius : ℚ
  top_radius : ℚ
  height : ℚ
  deriving DecidableEq

/-- The cone generator draws `base_radius = uniform(*size_range)`, then
`top_radius = uniform(0.1, base_radius)`, then
`height = uniform(*size_range)`. -/
def coneSampleGen (size : SizeBucket) (c : ConeSample) : Prop :=
  uniformClosed (size_to_range size).1 (size_to_range size).2 c.base_radius ∧
  uniformClosed (1 / 10) c.base_radius c.top_radius ∧
  uniformClosed (size_to_range size).1 (size_to_range size).2 c.height

/-- A torus sample, as returned by `generate_random_parameters` in
`generate_torus_data.py`. -/
structure TorusSample where
  major_radius : ℚ
  minor_radius : ℚ
  deriving DecidableEq

/-- The torus generator draws `major_radius = uniform(*size_range)`, then
`minor_radius = uniform(1, major_radius - 0.1)`. -/
def torusSampleGen (size : SizeBucket) (t : TorusSample) : Prop :=
  uniformClosed (size_to_range size).1 (size_to_range size).2 t.major_radius ∧
  uniformClosed 1 (t.major_radius - 1 / 10) t.minor_radius

/-! Text feature encoder: `preprocess_description` of `common.py`.
It extracts the decimal literals matching `\d+\.?\d*`, converts them with
`float`, extracts the keyword matches of a fixed alternation regex
(with word boundaries) from the lowercased text, and returns
`" ".join(keywords) + " " + " ".join(map(str, numerical_values))`. -/

/-- The keyword alternation of `preprocess_description`, in regex order. -/
def keywordVocab : List String :=
  ["plane", "box", "cylinder", "cone", "sphere", "ellipsoid", "torus", "prism",
   "wedge", "helix", "spiral", "circle", "ellipse", "point", "line", "polygon",
   "radius", "height", "tall", "diameter", "width", "length", "units", "angle",
   "degrees", "radians", "pitch"]

/-- Python's `\w` on the ASCII inputs at hand: letters, digits, underscore. -/
def isWordChar (c : Char) : Bool := c.isAlphanum || c = '_'

/-- A `\b` word boundary holds before the current position when the
previous character (if any) is not a word character (every vocabulary
word starts with a word character). -/
def boundaryBeforeOk (prev : Option Char) : Bool :=
  match prev with
  | none => true
  | some c => !isWordChar c

/-- Try the keyword alternation at the current position: the first
vocabulary word that is a prefix of the remaining text and has word
boundaries on both sides, exactly as the regex engine tries the
alternatives left to right. -/
def matchKeyword (prev : Option Char) (cs : List Char) : Option String :=
  keywordVocab.find? fun w =>
    let ws := w.toList
    boundaryBeforeOk prev && ws.isPrefixOf cs &&
      (match cs.drop ws.length with
       | [] => true
       | c :: _ => !isWordChar c)

/-- Left-to-right non-overlapping scan of `re.findall` for the keyword
regex.  `fuel` only bounds the recursion; each step consumes at least one
character, so `fuel = cs.length` is enough. -/
def scanKeywords : ℕ → Option Char → List Char → List String
  | 0, _, _ => []
  | _, _, [] => []
  | fuel + 1, prev, c :: rest =>
    match matchKeyword prev (c :: rest) with
    | some w =>
        w :: scanKeywords fuel (some (w.toList.getLastD c)) ((c :: rest).drop w.toList.length)
    | none => scanKeywords fuel (some c) rest

/-- Keyword extraction of `preprocess_description`: the regex is run on
`description.lower()`. -/
def extractKeywords (description : String) : List String :=
  let cs := description.toList.map Char.toLower
  scanKeywords cs.length none cs

/-- Split a maximal run of digits off the front of the text. -/
def takeDigits : List Char → List Char × List Char
  | [] => ([], [])
  | c :: rest =>
    if c.isDigit then
      let (ds, r) := takeDigits rest
      (c :: ds, r)
    else ([], c :: rest)

/-- Left-to-right non-overlapping scan of `re.findall(r"\d+\.?\d*", s)`:
a maximal digit run, optionally a dot followed by a maximal digit run. -/
def scanNumberLiterals : ℕ → List Char → List String
  | 0, _ => []
  | _, [] => []
  | fuel + 1, c :: rest =>
    if c.isDigit then
      let (ds, r1) := takeDigits (c :: rest)
      match r1 with
      | '.' :: r2 =>
          let (ds2, r3) := takeDigits r2
          String.mk (ds ++ '.' :: ds2) :: scanNumberLiterals fuel r3
      | _ => String.mk ds :: scanNumberLiterals fuel r1
    else scanNumberLiterals fuel rest

/-- The numeric literals found in a description, in order of occurrence. -/
def extractNumberLiterals (description : String) : List String :=
  scanNumberLiterals description.toList.length description.toList

/-- Value of a digit run. -/
def digitsToNat (ds : List Char) : ℕ :=
  ds.foldl (fun acc c => 10 * acc + (c.toNat - Char.toNat '0')) 0

/-- `float(lit)` for a literal matched by `\d+\.?\d*`, as an exact
rational (`"5.00"` is exactly 5). -/
def parseDecimal (lit : String) : ℚ :=
  let cs := lit.toList
  let intPart := cs.takeWhile fun c => c ≠ '.'
  let fracPart := (cs.dropWhile fun c => c ≠ '.').drop 1
  (digitsToNat intPart : ℚ) + (digitsToNat fracPart : ℚ) / (10 : ℚ) ^ fracPart.length

/-- Model of `str(float(lit))` for one literal matched by `\d+\.?\d*`:
CPython parses the literal to the nearest double and prints the shortest
round-tripping decimal, which for the short terminating literals the
scanner yields is the literal itself with leading integer zeros and
trailing fractional zeros removed and at least one digit kept on each
side of the dot (`"5.00"` becomes `"5.0"`, `"07"` becomes `"7.0"`). -/
def pyFloatStrOfLit (lit : String) : String :=
  let cs := lit.toList
  let intPart := cs.takeWhile fun c => c ≠ '.'
  let fracPart := (cs.dropWhile fun c => c ≠ '.').drop 1
  let intTrimmed := match intPart.dropWhile fun c => c = '0' with
    | [] => ['0']
    | l => l
  let fracTrimmed := match (fracPart.reverse.dropWhile fun c => c = '0').reverse with
    | [] => ['0']
    | l => l
  String.mk (intTrimmed ++ '.' :: fracTrimmed)

/-- `preprocess_description` of `common.py`: keyword matches, a space,
then the numeric literals pushed through `float` and `str`
(`pyFloatStrOfLit` is that composition). -/
def preprocess_description (description : String) : String :=
  let numerical_values := extractNumberLiterals description
  let keywords := extractKeywords description
  String.intercalate " " keywords ++ " " ++
    String.intercalate " " (numerical_values.map pyFloatStrOfLit)

/-! Inference decode and FreeCAD driver glue. -/

/-- The `Translation` pose component of `geometric_primitives.py`. -/
structure Translation where
  x : ℚ
  y : ℚ
  z : ℚ
  deriving DecidableEq

/-- The `RotationEuler` pose component of `geometric_primitives.py`. -/
structure RotationEuler where
  x_rad : ℚ
  y_rad : ℚ
  z_rad : ℚ
  deriving DecidableEq

/-- The `Object3D` dataclass of `freecad_tools.py`.  Its `parameters`
field is annotated `Parameters` but Python never enforces that:
`from_model_output_to_object` stores a plain list there, the example
driver stores a `Parameters` record, so the field type is a type
argument here. -/
structure Object3D (α : Type) where
  name : SupportedShapes
  parameters : α
  translation : Translation
  rotation : RotationEuler
  deriving DecidableEq

/-- The post-processing of `predict` in `common.py`: the model forward
pass is external, and `predict` returns `abs(params_pred)` — elementwise
absolute value of the raw output vector. -/
def predictPostprocess (raw : List ℚ) : List ℚ := raw.map fun x => |x|

/-- `from_model_output_to_object` of `parameter_tools.py`: assert both
vectors non-empty, then build
`Object3D(name=SupportedShapes(shape_vec[0]), parameters=shape_vec[1:],
translation=Translation(pose[0], pose[1], pose[2]),
rotation=RotationEuler(pose[3], pose[4], pose[5]))`, reading the
arguments in Python's left-to-right evaluation order. -/
def from_model_output_to_object
    (shape_prediction_vector pose_prediction_vector : List ℚ) :
    Except PyErr (Object3D (List ℚ)) :=
  if shape_prediction_vector.length = 0 then
    .error (.assertionError "The shape prediction vector needs to be larger than 0.")
  else if pose_prediction_vector.length = 0 then
    .error (.assertionError "The pose prediction vector needs to be larger than 0.")
  else do
    let v0 ← pyGet shape_prediction_vector 0
    let name ← SupportedShapes.fromValue v0
    let ps := shape_prediction_vector.drop 1
    let x ← pyGet pose_prediction_vector 0
    let y ← pyGet pose_prediction_vector 1
    let z ← pyGet pose_prediction_vector 2
    let xr ← pyGet pose_prediction_vector 3
    let yr ← pyGet pose_prediction_vector 4
    let zr ← pyGet pose_prediction_vector 5
    pure { name := name, parameters := ps,
           translation := { x := x, y := y, z := z },
           rotation := { x_rad := xr, y_rad := yr, z_rad := zr } }

/-- Log records emitted by `generate_freecad_file`. -/
inductive LogMsg where
  | info (msg : String)
  | error (msg : String)
  deriving DecidableEq

/-- The external CAD kernel's `doc.saveAs(output_file)`, modeled by an
oracle bit: it either succeeds or raises. -/
def saveDocument (saveOk : Bool) (path : String) : Except PyErr Unit :=
  if saveOk then .ok () else .error (.valueError "save failed")

/-- `str.capitalize()`: uppercase the first character, lowercase the
rest. -/
def pyCapitalize (s : String) : String :=
  match s.toList with
  | [] => ""
  | c :: rest => String.mk (Char.toUpper c :: rest.map Char.toLower)

/-- The capitalized shape-class names present in the module globals of
the installed `dist-packages/generative_cad/freecad_tools.py`: exactly
the classes its import list pulls from `geometric_primitives`.  There is
no `Cube` class anywhere (the cube shape is served by `Box`), so the
name `"Cube"` is absent. -/
def freecadToolsClassGlobals : List String :=
  ["Plane", "Box", "Cylinder", "Cone", "Sphere", "Torus", "Helix", "Circle"]

/-- The `globals()[class_name.capitalize()]` lookup of
`instantiate_from_string`: returns the resolved class name, or raises
`KeyError` when the capitalized name is not a module global (as happens
for `"cube"` → `"Cube"`). -/
def instantiateFromStringLookup (class_name : String) : Except PyErr String :=
  let cap := pyCapitalize class_name
  if cap ∈ freecadToolsClassGlobals then .ok cap else .error (.keyError cap)

/-- Calling `add_to_doc` on an instantiated shape: after the kernel's
`doc.addObject(...)`, the method body invokes the module-level helper as
`__add_to_doc(...)`.  Inside a class body Python mangles that identifier
to `_<ClassName>__add_to_doc`, a name that is never defined, so every
`add_to_doc` raises `NameError` before touching the placement. -/
def addToDocResult (cap : String) : Except PyErr Unit :=
  .error (.nameError ("_" ++ cap ++ "__add_to_doc"))

/-- One iteration of the object loop of `generate_freecad_file`:
`instantiate_from_string(str(obj.name), i, obj.parameters).add_to_doc(...)`.
The `cls.from_parameters`/`__init__` step in between only calls the
kernel's `Part.make*` constructors (external, assumed to succeed). -/
def processObject (obj : Object3D Parameters) : Except PyErr Unit := do
  let cap ← instantiateFromStringLookup (SupportedShapes.pyStr obj.name)
  addToDocResult cap

/-- The object loop of `generate_freecad_file`, in list order; the first
exception propagates (it is raised outside the `try` block). -/
def processObjects : List (Object3D Parameters) → Except PyErr Unit
  | [] => .ok ()
  | obj :: rest => do
    processObject obj
    processObjects rest

/-- `generate_freecad_file` of the installed
`dist-packages/generative_cad/freecad_tools.py`.  When `output_file` is
`None` a fresh temporary name is used.  The per-object loop runs before
the `try` block, so any exception it raises propagates to the caller;
the `try`/`except` around the kernel's save (the `saveOk` oracle) logs
an error and falls through, so once the loop finishes both save
outcomes return the same path. -/
def generate_freecad_file (objects : List (Object3D Parameters))
    (output_file : Option String) (tmpName : String) (saveOk : Bool) :
    Except PyErr (String × List LogMsg) :=
  let out := match output_file with
    | none => tmpName
    | some f => f
  match processObjects objects with
  | .error e => .error e
  | .ok _ =>
    match saveDocument saveOk out with
    | .ok _ =>
        .ok (out, [LogMsg.info ("[generate_freecad_file] Document saved successfully to: " ++ out)])
    | .error _ =>
        .ok (out, [LogMsg.error "[generate_freecad_file] Error saving document"])

/-! The batch loops of `train` and `evaluate` in `common.py`.  The model,
optimizer and criterion are externals; the loss of batch `i` is an
oracle `losses i`.  Both functions compute
`num_batches = len(X) // batch_size`, accumulate `epoch_loss` over
`range(num_batches)` and return `epoch_loss / num_batches` — a Python
`ZeroDivisionError` when `num_batches` is 0. -/

/-- `train` of `common.py` (one epoch). -/
def train (x_train_len batch_size : ℕ) (losses : ℕ → ℚ) : Except PyErr ℚ :=
  if batch_size = 0 then .error .zeroDivisionError
  else
    let num_batches := x_train_len / batch_size
    let epoch_loss := (List.range num_batches).foldl (fun acc i => acc + losses i) 0
    if num_batches = 0 then .error .zeroDivisionError
    else .ok (epoch_loss / (num_batches : ℚ))

/-- `evaluate` of `common.py` (identical batch arithmetic, no gradient
steps). -/
def evaluate (x_test_len batch_size : ℕ) (losses : ℕ → ℚ) : Except PyErr ℚ :=
  if batch_size = 0 then .error .zeroDivisionError
  else
    let num_batches := x_test_len / batch_size
    let epoch_loss := (List.range num_batches).foldl (fun acc i => acc + losses i) 0
    if num_batches = 0 then .error .zeroDivisionError
    else .ok (epoch_loss / (num_batches : ℚ))

/-! Helper lemmas shared by the claim theorems. -/

/-- Any shape string without a branch in `from_list_to_parameter` falls
through to the `POLYGON` guard and raises `AttributeError`. -/
lemma from_list_to_parameter_unsupported (shape : String) (parameters : List ℚ)
    (h : shape ∉ supportedShapeStrings) :
    from_list_to_parameter shape parameters =
      Except.error (PyErr.attributeError "POLYGON") := by
  simp only [supportedShapeStrings, List.mem_cons, List.not_mem_nil, or_false,
    not_or] at h
  obtain ⟨h1, h2, h3, h4, h5, h6, h7, h8⟩ := h
  simp [from_list_to_parameter, SupportedShapes.pyStr, SupportedShapes.box,
    h1, h2, h3, h4, h5, h6, h7, h8]

/-- Every size bucket's range lies at or above 1, so any value drawn
from it is at least 1. -/
lemma one_le_of_in_size_range (s : SizeBucket) (x : ℚ)
    (h : uniformClosed (size_to_range s).1 (size_to_range s).2 x) : 1 ≤ x := by
  cases s <;> rcases h with ⟨h1, h2⟩ | ⟨h1, h2⟩ <;>
    simp only [size_to_range] at h1 h2 <;> linarith

/-- When the pose vector has at most five entries, the decode reduces to
the shape-value lookup followed by an `IndexError` from reading the
missing pose slot. -/
lemma fromModelOutput_short (a : ℚ) (tl pv : List ℚ)
    (hpv : 0 < pv.length) (hpv5 : pv.length ≤ 5) :
    from_model_output_to_object (a :: tl) pv =
      Except.bind (SupportedShapes.fromValue a)
        (fun _ => Except.error PyErr.indexError) := by
  rcases pv with _ | ⟨p0, _ | ⟨p1, _ | ⟨p2, _ | ⟨p3, _ | ⟨p4, rest⟩⟩⟩⟩⟩
  · simp at hpv
  · rfl
  · rfl
  · rfl
  · rfl
  · have hrest : rest = [] := by
      simp only [List.length_cons] at hpv5
      exact List.length_eq_zero.mp (by omega)
    subst hrest
    rfl

/-- Every object makes its loop iteration raise: a CUBE/BOX-named object
fails the `globals()["Cube"]` lookup with `KeyError`, every other shape
reaches its `add_to_doc` and dies on the name-mangled
`_<ClassName>__add_to_doc` with `NameError`. -/
lemma processObject_error (obj : Object3D Parameters) :
    ∃ e, processObject obj = Except.error e := by
  obtain ⟨name, params, t, r⟩ := obj
  cases name <;> exact ⟨_, rfl⟩

/-- `generate_freecad_file` raises for every non-empty object list: the
first loop iteration's exception propagates, outside the `try` block. -/
lemma generate_freecad_file_nonempty (obj : Object3D Parameters)
    (objs : List (Object3D Parameters)) (output_file : Option String)
    (tmpName : String) (saveOk : Bool) :
    ∃ e, generate_freecad_file (obj :: objs) output_file tmpName saveOk =
      Except.error e := by
  obtain ⟨e, he⟩ := processObject_error obj
  refine ⟨e, ?_⟩
  simp only [generate_freecad_file, processObjects]
  rw [he]
  rfl

/-! Claim theorems. -/

/-- Claim C5: for every shape kind and every `Parameters` record,
`to_list()` returns exactly 9 elements in the fixed order
`[shape, length, width, height, radius, radius1, radius2, pitch, angle]`,
and every field not set at construction equals 0 (spelled out for every
construction the generator scripts perform). -/
theorem claim_c5_to_list_layout :
    (∀ p : Parameters, p.to_list.length = 9) ∧
    (∀ p : Parameters, p.to_list = [p.shape.value, p.length, p.width, p.height,
      p.radius, p.radius1, p.radius2, p.pitch, p.angle]) ∧
    (∀ w h : ℚ, (planeCadParameters w h).to_list = [1, 0, w, h, 0, 0, 0, 0, 0]) ∧
    (∀ l w h : ℚ, (boxCadParameters l w h).to_list = [2, l, w, h, 0, 0, 0, 0, 0]) ∧
    (∀ s : ℚ, (cubeCadParameters s).to_list = [2, s, s, s, 0, 0, 0, 0, 0]) ∧
    (∀ r h : ℚ, (cylinderCadParameters r h).to_list = [3, 0, 0, h, r, 0, 0, 0, 0]) ∧
    (∀ b t h : ℚ, (coneCadParameters b t h).to_list = [4, 0, 0, h, 0, b, t, 0, 0]) ∧
    (∀ r : ℚ, (sphereCadParameters r).to_list = [5, 0, 0, 0, r, 0, 0, 0, 0]) ∧
    (∀ a b : ℚ, (torusCadParameters a b).to_list = [7, 0, 0, 0, 0, a, b, 0, 0]) ∧
    (∀ p h r a : ℚ, (helixCadParameters p h r a).to_list = [10, 0, 0, h, r, 0, 0, p, a]) := by
  exact ⟨fun _ => rfl, fun _ => rfl, fun _ _ => rfl, fun _ _ _ => rfl, fun _ => rfl,
    fun _ _ => rfl, fun _ _ _ => rfl, fun _ => rfl, fun _ _ => rfl, fun _ _ _ _ => rfl⟩

/-- Claim C1 (code bug): the parameter-schema round-trip fails on the
code.  The generated sphere record of radius 2 flattens to
`[5, 0, 0, 0, 2, 0, 0, 0, 0]`, but `from_list_to_parameter("sphere", ...)`
reads the radius at index 3 — its index table is laid out for a list
without the leading shape slot — so the decoded record has radius 0, not
2.  The helix case additionally shows the `pitch → 5` collision with
`radius2`: pitch 2, height 3, radius 4, angle 5 decode to pitch 0,
height 0, radius 3, angle 2. -/
theorem claim_c1_roundtrip_failure :
    from_list_to_parameter "sphere" (Parameters.to_list (sphereCadParameters 2)) =
      Except.ok { shape := SupportedShapes.sphere } ∧
    (sphereCadParameters 2).radius = 2 ∧
    ({ shape := SupportedShapes.sphere } : Parameters).radius = 0 ∧
    from_list_to_parameter "helix" (Parameters.to_list (helixCadParameters 2 3 4 5)) =
      Except.ok { shape := SupportedShapes.helix, pitch := 0, height := 0,
                  radius := 3, angle := 2 } :=
  ⟨rfl, rfl, rfl, rfl⟩

/-- Claim C3 (code bug): an unsupported shape string is signaled by an
`AttributeError`, not the intended `ValueError`: every shape string that
matches no branch reaches the guard `shape == str(SupportedShapes.POLYGON)`,
and `POLYGON` is not a member of the enum, so the attribute access raises
before the `raise ValueError` line can run. -/
theorem claim_c3_unsupported_shape_error (shape : String) (parameters : List ℚ)
    (h : shape ∉ supportedShapeStrings) :
    from_list_to_parameter shape parameters =
      Except.error (PyErr.attributeError "POLYGON") :=
  from_list_to_parameter_unsupported shape parameters h

/-- Witness for C3 at the concrete unsupported shape string `"banana"`. -/
theorem claim_c3_unsupported_shape_error_witness :
    from_list_to_parameter "banana" [] =
      Except.error (PyErr.attributeError "POLYGON") :=
  claim_c3_unsupported_shape_error "banana" [] (by decide)

/-- Claim C8: `BOX` aliases `CUBE` (same member, value 2), so
`str(SupportedShapes.BOX)` is `"cube"` and the string `"box"` that the
box generator writes into its records matches no branch of
`from_list_to_parameter`: the call always fails instead of returning a
`Parameters` record. -/
theorem claim_c8_box_string_never_decodes :
    SupportedShapes.box = SupportedShapes.cube ∧
    SupportedShapes.box.pyStr = "cube" ∧
    SupportedShapes.box.value = 2 ∧
    ∀ parameters : List ℚ,
      from_list_to_parameter "box" parameters =
        Except.error (PyErr.attributeError "POLYGON") :=
  ⟨rfl, rfl, rfl, fun parameters =>
    from_list_to_parameter_unsupported "box" parameters (by decide)⟩

/-- Claim C2 (counterexample): on
`"A small cylinder with a radius of 5.00 units"` the keyword regex also
matches `"units"` (it is in the vocabulary), so the extraction is not
`["cylinder", "radius"]` and the combined string is not
`"cylinder radius 5.0"`. -/
theorem claim_c2_counterexample :
    extractKeywords "A small cylinder with a radius of 5.00 units" ≠
      ["cylinder", "radius"] ∧
    preprocess_description "A small cylinder with a radius of 5.00 units" ≠
      "cylinder radius 5.0" := by
  decide

/-- Claim C2 as amended: the keyword extraction yields
`["cylinder", "radius", "units"]` in order of first occurrence, the
numeric extraction yields the literal `"5.00"` parsed as 5.0, and the
combined string is `"cylinder radius units 5.0"`. -/
theorem claim_c2_amended :
    extractKeywords "A small cylinder with a radius of 5.00 units" =
      ["cylinder", "radius", "units"] ∧
    extractNumberLiterals "A small cylinder with a radius of 5.00 units" = ["5.00"] ∧
    parseDecimal "5.00" = 5 ∧
    pyFloatStrOfLit "5.00" = "5.0" ∧
    preprocess_description "A small cylinder with a radius of 5.00 units" =
      "cylinder radius units 5.0" := by
  refine ⟨by decide, by decide, ?_, by decide, by decide⟩
  have h : parseDecimal "5.00" =
      ((5 : ℕ) : ℚ) + ((0 : ℕ) : ℚ) / (10 : ℚ) ^ (2 : ℕ) := rfl
  rw [h]
  norm_num

/-- Claim C4 (counterexample): under the claim's closed-interval model of
`random.uniform`, strictness fails at the interval ends: base radius 1
with top radius 1 is a valid cone sample (`uniform(0.1, 1)` may return 1),
and major radius 1 with minor radius 1 is a valid torus sample
(`uniform(1, 0.9)` spans `[0.9, 1]`), yet neither is strictly
decreasing. -/
theorem claim_c4_counterexample :
    coneSampleGen SizeBucket.small ⟨1, 1, 1⟩ ∧
    ¬ (ConeSample.top_radius ⟨1, 1, 1⟩ < ConeSample.base_radius ⟨1, 1, 1⟩) ∧
    torusSampleGen SizeBucket.small ⟨1, 1⟩ ∧
    ¬ (TorusSample.minor_radius ⟨1, 1⟩ < TorusSample.major_radius ⟨1, 1⟩) := by
  norm_num [coneSampleGen, torusSampleGen, uniformClosed, size_to_range]

/-- Claim C4 as amended: every cone sample satisfies
`top_radius ≤ base_radius` and every torus sample satisfies
`minor_radius ≤ major_radius` (non-strict; strictness fails only at the
closed-interval endpoints shown in the counterexample). -/
theorem claim_c4_amended :
    (∀ (size : SizeBucket) (c : ConeSample), coneSampleGen size c →
      c.top_radius ≤ c.base_radius) ∧
    (∀ (size : SizeBucket) (t : TorusSample), torusSampleGen size t →
      t.minor_radius ≤ t.major_radius) := by
  constructor
  · rintro size c ⟨hb, ht, -⟩
    have h1 : (1 : ℚ) ≤ c.base_radius := one_le_of_in_size_range size _ hb
    rcases ht with ⟨ht1, ht2⟩ | ⟨ht1, ht2⟩
    · exact ht2
    · linarith
  · rintro size t ⟨hm, hn⟩
    have h1 : (1 : ℚ) ≤ t.major_radius := one_le_of_in_size_range size _ hm
    rcases hn with ⟨hn1, hn2⟩ | ⟨hn1, hn2⟩
    · linarith
    · linarith

/-- Witness for the amended C4 at concrete samples: cone
(base 2, top 1, height 3) and torus (major 2, minor 1). -/
theorem claim_c4_amended_witness :
    (coneSampleGen SizeBucket.small ⟨2, 1, 3⟩ ∧
      ConeSample.top_radius ⟨2, 1, 3⟩ ≤ ConeSample.base_radius ⟨2, 1, 3⟩) ∧
    (torusSampleGen SizeBucket.small ⟨2, 1⟩ ∧
      TorusSample.minor_radius ⟨2, 1⟩ ≤ TorusSample.major_radius ⟨2, 1⟩) :=
  ⟨⟨by norm_num [coneSampleGen, uniformClosed, size_to_range],
    claim_c4_amended.1 SizeBucket.small ⟨2, 1, 3⟩
      (by norm_num [coneSampleGen, uniformClosed, size_to_range])⟩,
   ⟨by norm_num [torusSampleGen, uniformClosed, size_to_range],
    claim_c4_amended.2 SizeBucket.small ⟨2, 1⟩
      (by norm_num [torusSampleGen, uniformClosed, size_to_range])⟩⟩

/-- Claim C6 (counterexample): for a non-empty object list the function
does not return the path at all — it raises before the save, whatever
the save outcome would have been.  A SPHERE object dies with the
`NameError` on the name-mangled `__add_to_doc` call; a CUBE-named object
dies earlier with the `KeyError` from `globals()["Cube"]`. -/
theorem claim_c6_counterexample :
    generate_freecad_file
        [{ name := SupportedShapes.sphere, parameters := sphereCadParameters 2,
           translation := { x := 0, y := 0, z := 0 },
           rotation := { x_rad := 0, y_rad := 0, z_rad := 0 } }]
        (some "out.fcstd") "tmp.fcstd" true =
      Except.error (PyErr.nameError "_Sphere__add_to_doc") ∧
    generate_freecad_file
        [{ name := SupportedShapes.sphere, parameters := sphereCadParameters 2,
           translation := { x := 0, y := 0, z := 0 },
           rotation := { x_rad := 0, y_rad := 0, z_rad := 0 } }]
        (some "out.fcstd") "tmp.fcstd" false =
      Except.error (PyErr.nameError "_Sphere__add_to_doc") ∧
    generate_freecad_file
        [{ name := SupportedShapes.cube, parameters := cubeCadParameters 1,
           translation := { x := 0, y := 0, z := 0 },
           rotation := { x_rad := 0, y_rad := 0, z_rad := 0 } }]
        (some "out.fcstd") "tmp.fcstd" true =
      Except.error (PyErr.keyError "Cube") :=
  ⟨rfl, rfl, rfl⟩

/-- Claim C6 as amended: only for the empty object list does
`generate_freecad_file` return the intended output path, and then it
does so regardless of whether the save succeeded or raised — the save
failure is caught and logged, the returned path is the same, and callers
cannot distinguish the outcomes by return value.  For every non-empty
object list the per-object loop raises before the save (the `KeyError`
or `NameError` of the counterexample), so no path is returned. -/
theorem claim_c6_save_failure_invisible :
    (∀ path tmpName : String,
      generate_freecad_file [] (some path) tmpName true =
        Except.ok (path,
          [LogMsg.info ("[generate_freecad_file] Document saved successfully to: " ++ path)]) ∧
      generate_freecad_file [] (some path) tmpName false =
        Except.ok (path, [LogMsg.error "[generate_freecad_file] Error saving document"])) ∧
    (∀ (obj : Object3D Parameters) (objs : List (Object3D Parameters))
        (output_file : Option String) (tmpName : String) (saveOk : Bool)
        (res : String × List LogMsg),
      generate_freecad_file (obj :: objs) output_file tmpName saveOk ≠ Except.ok res) := by
  constructor
  · intro path tmpName
    exact ⟨rfl, rfl⟩
  · intro obj objs output_file tmpName saveOk res heq
    obtain ⟨e, he⟩ := generate_freecad_file_nonempty obj objs output_file tmpName saveOk
    rw [he] at heq
    exact Except.noConfusion heq

/-- Claim C7: the inference decode of the raw model output
`[5, 2, 0, 0, 0, 0, 0, 0, 0]` (after `predict`'s absolute value) is an
`Object3D` named `SPHERE` with parameters `[2, 0, 0, 0, 0, 0, 0, 0]` and
the zero pose the driver passes; the absolute value flips any negative
entry before decoding. -/
theorem claim_c7_inference_decode :
    from_model_output_to_object (predictPostprocess [5, 2, 0, 0, 0, 0, 0, 0, 0])
        [0, 0, 0, 0, 0, 0] =
      Except.ok { name := SupportedShapes.sphere,
                  parameters := [2, 0, 0, 0, 0, 0, 0, 0],
                  translation := { x := 0, y := 0, z := 0 },
                  rotation := { x_rad := 0, y_rad := 0, z_rad := 0 } } ∧
    predictPostprocess [5, -2, 0, 0, 0, 0, 0, 0, 0] = [5, 2, 0, 0, 0, 0, 0, 0, 0] := by
  have hp : predictPostprocess [5, 2, 0, 0, 0, 0, 0, 0, 0] =
      [5, 2, 0, 0, 0, 0, 0, 0, 0] := by
    norm_num [predictPostprocess, abs_eq_max_neg, max_def]
  refine ⟨?_, by norm_num [predictPostprocess, abs_eq_max_neg, max_def]⟩
  rw [hp]
  rfl

/-- Claim C9: when the (non-empty) dataset is smaller than the batch
size, `train` and `evaluate` compute `num_batches = len // batch_size = 0`,
run no batches, and the final `epoch_loss / num_batches` raises a
division by zero instead of returning a loss. -/
theorem claim_c9_small_dataset_division_by_zero :
    ∀ (len batch_size : ℕ) (lossesT lossesE : ℕ → ℚ),
      0 < len → len < batch_size →
      train len batch_size lossesT = Except.error PyErr.zeroDivisionError ∧
      evaluate len batch_size lossesE = Except.error PyErr.zeroDivisionError := by
  intro len batch lossesT lossesE hpos hlt
  have hb : ¬ batch = 0 := by omega
  have h0 : len / batch = 0 := Nat.div_eq_of_lt hlt
  constructor <;> simp [train, evaluate, hb, h0]

/-- Witness for C9: a dataset of 3 samples with the default batch size
32. -/
theorem claim_c9_small_dataset_division_by_zero_witness :
    train 3 32 (fun _ => 0) = Except.error PyErr.zeroDivisionError ∧
    evaluate 3 32 (fun _ => 0) = Except.error PyErr.zeroDivisionError :=
  claim_c9_small_dataset_division_by_zero 3 32 (fun _ => 0) (fun _ => 0)
    (by decide) (by decide)

/-- Claim C10: `from_model_output_to_object` only asserts that its two
vectors are non-empty, yet reads pose indices 0 through 5: for every pose
vector of length 1 to 5 the assertions pass but the call never completes
— and whenever the shape lookup itself succeeds, the failure is exactly
the out-of-bounds `IndexError` on the pose vector. -/
theorem claim_c10_nonempty_insufficient :
    (∀ sv pv : List ℚ, 0 < sv.length → 0 < pv.length → pv.length ≤ 5 →
      ∀ r : Object3D (List ℚ), from_model_output_to_object sv pv ≠ Except.ok r) ∧
    (∀ (sv pv : List ℚ) (s : SupportedShapes),
      SupportedShapes.fromValue sv.headI = Except.ok s →
      0 < sv.length → 0 < pv.length → pv.length ≤ 5 →
      from_model_output_to_object sv pv = Except.error PyErr.indexError) := by
  constructor
  · rintro (_ | ⟨a, tl⟩) pv hsv hpv hpv5 r heq
    · simp at hsv
    · rw [fromModelOutput_short a tl pv hpv hpv5] at heq
      cases h : SupportedShapes.fromValue a <;> rw [h] at heq <;>
        simp [Except.bind] at heq
  · rintro (_ | ⟨a, tl⟩) pv s hs hsv hpv hpv5
    · simp at hsv
    · rw [fromModelOutput_short a tl pv hpv hpv5]
      have ha : List.headI (a :: tl) = a := rfl
      rw [ha] at hs
      rw [hs]
      rfl

/-- Witness for C10: shape vector `[5]` and the length-3 pose vector
`[0, 0, 0]` pass both assertions, yet the decode raises `IndexError`. -/
theorem claim_c10_nonempty_insufficient_witness :
    from_model_output_to_object [5] [0, 0, 0] ≠
      Except.ok { name := SupportedShapes.sphere, parameters := [],
                  translation := { x := 0, y := 0, z := 0 },
                  rotation := { x_rad := 0, y_rad := 0, z_rad := 0 } } ∧
    from_model_output_to_object [5] [0, 0, 0] = Except.error PyErr.indexError :=
  ⟨claim_c10_nonempty_insufficient.1 [5] [0, 0, 0] (by decide) (by decide) (by decide) _,
   claim_c10_nonempty_insufficient.2 [5] [0, 0, 0] SupportedShapes.sphere
     (by decide) (by decide) (by decide) (by decide)⟩

end TextToCad
